import Mathlib

/-!
Verification of the authentication and authorization core of a multi-user
blogging application (Express + Mongoose backend).

Embedded from the backend sources:
  backend/utils/generateToken.js        (token issuance)
  backend/middleware, protect           (identity resolver)
  backend/middleware/errorMiddleware.js (final error handler)
  backend/controllers/blogController.js (createBlog, updateBlog, deleteBlog)
  backend/models/User.js                (password pre-save hook, comparePassword)
  backend/models/Blog.js                (blog document shape)

The jsonwebtoken and bcryptjs libraries are external collaborators; they are
modelled from the specification of the Token Codec and the Credential Hasher.
The account service (signupUser, loginUser of authController.js) is not part
of the available sources and is modelled from the specification as well.
-/

/-- A signed identity token, modelled from the spec of the Token Codec:
subject identifier, issuance time, expiry time (seconds), and a signature
over those fields with the process-wide server secret. -/
structure Token where
  subject : String
  iat : Nat
  exp : Nat
  sig : Nat
deriving DecidableEq

/-- A raw credential as received on the wire: either it parses into a
well-formed token, or it is an unparseable blob (the Malformed case). -/
inductive RawToken where
  | wellFormed (t : Token)
  | garbage (s : String)
deriving DecidableEq

/-- Modelled from the spec: the signature tag the codec computes over the
server secret and the token fields. A concrete executable keyed checksum
standing in for the HMAC of the jsonwebtoken library; it is reduced to a
32-bit tag, so arithmetic is explicit modulo 2 ^ 32. -/
def macSig (secret subject : String) (iat exp : Nat) : Nat :=
  ((secret ++ "|" ++ subject).data.foldl
    (fun a c => a * 131 + c.toNat + 1) (iat * 2654435761 + exp)) % 2 ^ 32

/-- Result of token verification, modelled from the spec of the Token Codec:
success carries the embedded subject identifier; the failure cases are
InvalidSignature, Expired and Malformed. -/
inductive VerifyResult where
  | ok (subject : String)
  | invalidSignature
  | expired
  | malformed
deriving DecidableEq

/-- The fixed token lifetime: expiresIn 30d in generateToken.js, in seconds. -/
def thirtyDaysSeconds : Nat := 30 * 24 * 60 * 60

/-- generateToken.js: jwt.sign with payload id = userId, the process secret,
and expiresIn 30d. The issued token carries the subject, issuance time now,
expiry now + 30 days, and the signature over those fields. -/
def generateToken (secret : String) (userId : String) (now : Nat) : RawToken :=
  .wellFormed
    { subject := userId
      iat := now
      exp := now + thirtyDaysSeconds
      sig := macSig secret userId now (now + thirtyDaysSeconds) }

/-- Modelled from the spec: jwt.verify of the Token Codec. An unparseable
blob is Malformed; a parsed token whose signature does not match the one
recomputed from the secret is InvalidSignature; a token whose expiry has
passed is Expired; otherwise verification returns the embedded subject. -/
def verifyToken (secret : String) (now : Nat) : RawToken → VerifyResult
  | .garbage _ => .malformed
  | .wellFormed t =>
      if t.sig = macSig secret t.subject t.iat t.exp then
        if t.exp < now then .expired else .ok t.subject
      else .invalidSignature

/-- Modelled from the spec: the stored hashed form a bcrypt hash string
denotes — the salt used and the digest. One-wayness is not representable in
a functional model, so the digest is represented by the residue the hash
determines, namely the plaintext it was derived from; only equality of
digests is ever observed. -/
structure HashedForm where
  salt : Nat
  digest : String
deriving DecidableEq

/-- Modelled from the spec: bcrypt.hash with an explicit salt (the schema
pre-save hook draws a fresh random salt per call; randomness is passed as an
explicit parameter). -/
def bcryptHash (salt : Nat) (plain : String) : HashedForm :=
  { salt := salt, digest := plain }

/-- Modelled from the spec: bcrypt.compare recomputes the hash of the
candidate with the salt embedded in the stored form and compares. -/
def bcryptCompare (candidate : String) (h : HashedForm) : Bool :=
  bcryptHash h.salt candidate == h

/-- A persisted user document (User.js): id, name, email (stored lowercased
by the schema), and the bcrypt-hashed password field. -/
structure StoredUser where
  id : String
  name : String
  email : String
  password : HashedForm
deriving DecidableEq

/-- The authenticated identity attached to the request by protect: the user
document with the password field stripped (select -password). -/
structure AuthUser where
  id : String
  name : String
  email : String
deriving DecidableEq

/-- Projection performed by select -password in the protect middleware. -/
def stripPassword (u : StoredUser) : AuthUser :=
  { id := u.id, name := u.name, email := u.email }

/-- User.findById over the user collection. -/
def findUserById (users : List StoredUser) (uid : String) : Option StoredUser :=
  users.find? (fun u => u.id == uid)

/-- comparePassword instance method of User.js: bcrypt.compare of the
candidate against the stored hashed password. -/
def comparePassword (u : StoredUser) (candidate : String) : Bool :=
  bcryptCompare candidate u.password

/-- The shape of the Authorization header as observed by protect. The code
inspects req.headers.authorization; the classes are: header absent
(missing); header present but not starting with the string Bearer
(otherSchemeHeader); header starting with Bearer but with no second
space-separated part, so split by a space has no index 1 (bearerNoToken);
header starting with Bearer followed by a token blob (bearer). -/
inductive AuthHeader where
  | missing
  | otherSchemeHeader (raw : String)
  | bearerNoToken
  | bearer (tok : RawToken)

/-- Outcome of the protect middleware: a thrown 401 error with its message
(routed to the error handler), or the request proceeding with the
authenticated identity attached. -/
inductive ProtectResult where
  | unauthorized (msg : String)
  | ok (u : AuthUser)
deriving DecidableEq

/-- protect middleware: if the header is present and starts with Bearer,
the try block runs — the token is the second space-separated part, it is
verified, and the user is loaded by the decoded id with the password
stripped; a verification failure or a missing user is caught and rethrown
as a 401 with the generic token-failed message (the user-not-found throw
inside the try block is caught by the same catch). A Bearer-prefixed
header with no second part also enters the try block: verifying the
undefined token throws, so the catch rethrows the same token-failed
message and the no-token branch below is never reached. Only when the
header is absent or lacks the Bearer prefix does the trailing no-token
check throw 401 with the no-token message. The user collection is
threaded through unchanged: the middleware only reads storage. -/
def protect (secret : String) (now : Nat) (users : List StoredUser)
    (h : AuthHeader) : ProtectResult × List StoredUser :=
  match h with
  | .bearer tok =>
      match verifyToken secret now tok with
      | .ok subj =>
          match findUserById users subj with
          | some u => (.ok (stripPassword u), users)
          | none => (.unauthorized "Not authorized, token failed or expired", users)
      | _ => (.unauthorized "Not authorized, token failed or expired", users)
  | .bearerNoToken =>
      (.unauthorized "Not authorized, token failed or expired", users)
  | _ => (.unauthorized "Not authorized, no token provided", users)

/-- A blog document (Blog.js): title, category, content, image URL (schema
default is the empty string), the owning user id, and the denormalized
author name. -/
structure Blog where
  id : String
  title : String
  category : String
  content : String
  image : String
  userId : String
  authorName : String
deriving DecidableEq

/-- A request body for the blog controllers. The controllers destructure
title, category, content and image; a client may also send userId or
authorName fields, which the destructuring never reads. A field is none
when absent from the JSON body. -/
structure BlogBody where
  title : Option String
  category : Option String
  content : Option String
  image : Option String
  userId : Option String
  authorName : Option String
deriving DecidableEq

/-- JavaScript falsiness of an optional string field: undefined and the
empty string are falsy. -/
def jsFalsy : Option String → Bool
  | none => true
  | some s => s == ""

/-- JavaScript expression v or-else d over an optional string: undefined and
the empty string fall back to d. -/
def jsOr (v : Option String) (d : String) : String :=
  match v with
  | none => d
  | some s => if s == "" then d else s

/-- Blog.findById over the blog collection. -/
def findBlogById (store : List Blog) (bid : String) : Option Blog :=
  store.find? (fun b => b.id == bid)

/-- Outcome of a blog controller call: a thrown error with the status set on
the response (routed to the error handler), a 201 created document, a 200
updated document, or a 200 deletion message. -/
inductive BlogResult where
  | err (status : Nat)
  | created (b : Blog)
  | updated (b : Blog)
  | deleted
deriving DecidableEq

/-- createBlog of blogController.js: 400 if title, category or content is
missing or empty (falsy); 401 if no authenticated user is attached; else a
new document is built with the four body fields, image falling back to the
schema default empty string, and userId and authorName taken from req.user,
then saved. Mongoose schema-level validation of the saved document is not
modelled; no claim depends on it. -/
def createBlog (store : List Blog) (user : Option AuthUser) (body : BlogBody)
    (newId : String) : BlogResult × List Blog :=
  if jsFalsy body.title || jsFalsy body.category || jsFalsy body.content then
    (.err 400, store)
  else
    match user with
    | none => (.err 401, store)
    | some u =>
        let b : Blog :=
          { id := newId
            title := body.title.getD ""
            category := body.category.getD ""
            content := body.content.getD ""
            image := jsOr body.image ""
            userId := u.id
            authorName := u.name }
        (.created b, store ++ [b])

/-- The field updates updateBlog applies to the found document: title,
category and content keep the old value when the body field is falsy
(JavaScript or-else); image is replaced exactly when the body field is not
undefined. The id, userId and authorName fields are never assigned. -/
def applyUpdate (body : BlogBody) (b : Blog) : Blog :=
  { b with
    title := jsOr body.title b.title
    category := jsOr body.category b.category
    content := jsOr body.content b.content
    image := match body.image with
             | none => b.image
             | some s => s }

/-- updateBlog of blogController.js: 404 if no document has the requested
id; 403 if no authenticated user is attached or the document owner id
differs from the authenticated id; otherwise the field updates are applied
and the document is saved back (the document with that id is replaced). -/
def updateBlog (store : List Blog) (user : Option AuthUser) (bid : String)
    (body : BlogBody) : BlogResult × List Blog :=
  match findBlogById store bid with
  | none => (.err 404, store)
  | some b =>
      match user with
      | none => (.err 403, store)
      | some u =>
          if b.userId == u.id then
            let b2 := applyUpdate body b
            (.updated b2, store.map (fun c => if c.id == b.id then b2 else c))
          else
            (.err 403, store)

/-- deleteBlog of blogController.js: 404 if no document has the requested
id; 403 if no authenticated user is attached or the document owner id
differs from the authenticated id; otherwise findByIdAndDelete removes the
document with that id. -/
def deleteBlog (store : List Blog) (user : Option AuthUser) (bid : String) :
    BlogResult × List Blog :=
  match findBlogById store bid with
  | none => (.err 404, store)
  | some b =>
      match user with
      | none => (.err 403, store)
      | some u =>
          if b.userId == u.id then
            (.deleted, store.filter (fun c => !(c.id == bid)))
          else
            (.err 403, store)

/-- The error object reaching the final error handler: its message and its
stack trace. -/
structure ErrObj where
  message : String
  stack : String
deriving DecidableEq

/-- The response state when the error handler runs: the status code set so
far (200 when no controller set a more specific one). -/
structure Res where
  statusCode : Nat
deriving DecidableEq

/-- The JSON error response the handler sends: final status, the message
field, and the stack field (none models the JSON null). -/
structure ErrResponse where
  status : Nat
  message : String
  stack : Option String
deriving DecidableEq

/-- errorHandler of errorMiddleware.js: status becomes 500 when it is still
200, otherwise the already-set status is kept; the body carries the error
message, and the stack, which is null exactly when NODE_ENV is production. -/
def errorHandler (nodeEnv : String) (err : ErrObj) (res : Res) : ErrResponse :=
  { status := if res.statusCode = 200 then 500 else res.statusCode
    message := err.message
    stack := if nodeEnv == "production" then none else some err.stack }

/-- Outcome of an account-service call: an error status with its message, or
success carrying the account summary (no password hash) and a token. -/
inductive AuthOutcome where
  | failure (status : Nat) (message : String)
  | success (account : AuthUser) (token : RawToken)
deriving DecidableEq

/-- Executable character-wise lowercasing, standing in for the toLowerCase
normalization the mongoose lowercase option applies to the email field. -/
def toLowerStr (s : String) : String :=
  ⟨s.data.map Char.toLower⟩

/-- User.findOne by email: the schema stores emails lowercased and the spec
makes the login lookup case-insensitive, so the candidate email is
lowercased before comparison. -/
def findUserByEmail (users : List StoredUser) (email : String) : Option StoredUser :=
  users.find? (fun u => u.email == toLowerStr email)

/-- Modelled from the spec: loginUser of the Account Service
(authController.js is not among the available sources). Looks up the
account by email case-insensitively; a missing account and a failing
password comparison both produce the identical 401 failure; on success a
token is issued for the account id. -/
def loginUser (secret : String) (now : Nat) (users : List StoredUser)
    (email password : String) : AuthOutcome :=
  match findUserByEmail users email with
  | none => .failure 401 "Invalid email or password"
  | some u =>
      if comparePassword u password then
        .success (stripPassword u) (generateToken secret u.id now)
      else
        .failure 401 "Invalid email or password"

/-- Modelled from the spec: signupUser of the Account Service
(authController.js is not among the available sources). Validates presence
of the fields and the minimum password length of 6 from User.js; fails with
DuplicateEmail when an account with the same email, compared
case-insensitively through the lowercased unique email field of User.js,
already exists, leaving the store untouched; otherwise persists the new
account with the hashed password and issues a token. Email-syntax
validation is not modelled; no claim depends on it. -/
def signupUser (secret : String) (now : Nat) (users : List StoredUser)
    (name email password : String) (newId : String) (salt : Nat) :
    AuthOutcome × List StoredUser :=
  if name == "" || email == "" || password.length < 6 then
    (.failure 400 "ValidationError", users)
  else
    match findUserByEmail users email with
    | some _ => (.failure 409 "DuplicateEmail", users)
    | none =>
        let u : StoredUser :=
          { id := newId
            name := name
            email := toLowerStr email
            password := bcryptHash salt password }
        (.success (stripPassword u) (generateToken secret newId now), users ++ [u])

/-- Flipping any single bit of a natural number changes it. -/
theorem xor_two_pow_ne (a k : Nat) : a ^^^ 2 ^ k ≠ a := by
  intro h
  have h0 : a ^^^ (a ^^^ 2 ^ k) = a ^^^ a := by rw [h]
  rw [← Nat.xor_assoc, Nat.xor_self, Nat.zero_xor] at h0
  have h1 : 0 < 2 ^ k := Nat.pos_pow_of_pos k (by omega)
  omega

/-- C3: for every subject id, verifying a token immediately after issuing it
for that subject with the same process-wide secret succeeds and returns the
subject embedded at issuance. -/
theorem verify_after_issue_roundtrip (secret s : String) (now : Nat) :
    verifyToken secret now (generateToken secret s now) = .ok s := by
  have hexp : ¬ (now + thirtyDaysSeconds < now) := by
    simp [thirtyDaysSeconds]
  simp [generateToken, verifyToken, hexp]

/-- C4: token verification fails exactly on bad tokens — a signature that
does not validate against the secret (in particular one altered by a single
bit) gives InvalidSignature, a passed expiry (issuance plus the 30-day
lifetime) gives Expired, an unparseable token gives Malformed, and success
returns exactly the embedded subject of a validly signed, unexpired token. -/
theorem verifyToken_failure_partition (secret : String) (now : Nat) (t : Token)
    (s sub : String) (k t0 : Nat) :
    (t.sig ≠ macSig secret t.subject t.iat t.exp →
      verifyToken secret now (.wellFormed t) = .invalidSignature) ∧
    (t.sig = macSig secret t.subject t.iat t.exp →
      verifyToken secret now (.wellFormed { t with sig := t.sig ^^^ 2 ^ k }) =
        .invalidSignature) ∧
    (t.sig = macSig secret t.subject t.iat t.exp → t.exp < now →
      verifyToken secret now (.wellFormed t) = .expired) ∧
    (verifyToken secret now (.garbage s) = .malformed) ∧
    (t0 + thirtyDaysSeconds < now →
      verifyToken secret now (generateToken secret sub t0) = .expired) ∧
    (verifyToken secret now (.wellFormed t) = .ok sub →
      t.subject = sub ∧ t.sig = macSig secret t.subject t.iat t.exp ∧
        ¬ t.exp < now) := by
  refine ⟨?_, ?_, ?_, ?_, ?_, ?_⟩
  · intro hne
    simp only [verifyToken]
    rw [if_neg hne]
  · intro heq
    simp only [verifyToken]
    rw [if_neg]
    intro hcontra
    exact xor_two_pow_ne t.sig k (hcontra.trans heq.symm)
  · intro heq hexp
    simp only [verifyToken]
    rw [if_pos heq, if_pos hexp]
  · rfl
  · intro hlt
    simp [generateToken, verifyToken, hlt]
  · intro hok
    simp only [verifyToken] at hok
    by_cases hsig : t.sig = macSig secret t.subject t.iat t.exp
    · rw [if_pos hsig] at hok
      by_cases hexp : t.exp < now
      · rw [if_pos hexp] at hok
        exact absurd hok (by simp)
      · rw [if_neg hexp] at hok
        refine ⟨?_, hsig, hexp⟩
        injection hok
    · rw [if_neg hsig] at hok
      exact absurd hok (by simp)

/-- C4 witness: concrete instances for each failure hypothesis — a bad
signature, a single-bit flip of a valid signature, an expired valid token,
a garbage blob, a token verified past its 30-day lifetime, and a successful
verification recovering the subject. -/
theorem verifyToken_failure_partition_witness :
    verifyToken "key" 0 (.wellFormed ⟨"u1", 0, 9, 5⟩) = .invalidSignature ∧
    verifyToken "key" 0
      (.wellFormed ⟨"u1", 0, thirtyDaysSeconds,
          macSig "key" "u1" 0 thirtyDaysSeconds ^^^ 2 ^ 0⟩) =
      .invalidSignature ∧
    verifyToken "key" 2592001
      (.wellFormed ⟨"u1", 0, thirtyDaysSeconds,
          macSig "key" "u1" 0 thirtyDaysSeconds⟩) = .expired ∧
    verifyToken "key" 0 (.garbage "not-a-token") = .malformed ∧
    verifyToken "key" 2592001 (generateToken "key" "u1" 0) = .expired ∧
    ("u1" = "u1" ∧
      macSig "key" "u1" 0 thirtyDaysSeconds =
        macSig "key" "u1" 0 thirtyDaysSeconds ∧
      ¬ thirtyDaysSeconds < 0) := by
  have hbad := verifyToken_failure_partition "key" 0 ⟨"u1", 0, 9, 5⟩
    "not-a-token" "u1" 0 0
  have hgood := verifyToken_failure_partition "key" 2592001
    ⟨"u1", 0, thirtyDaysSeconds, macSig "key" "u1" 0 thirtyDaysSeconds⟩
    "not-a-token" "u1" 0 0
  have hconv := verifyToken_failure_partition "key" 0
    ⟨"u1", 0, thirtyDaysSeconds, macSig "key" "u1" 0 thirtyDaysSeconds⟩
    "not-a-token" "u1" 0 0
  refine ⟨hbad.1 (by decide), ?_, hgood.2.2.1 rfl (by decide),
    hbad.2.2.2.1, hgood.2.2.2.2.1 (by decide), hconv.2.2.2.2.2 (by decide)⟩
  exact hconv.2.1 rfl

/-- C5: hashing the same password with two different salts yields two
different hashed forms, verification of the password against its hash
succeeds for any salt, and verification of a different password against the
hash fails. -/
theorem bcrypt_hash_verify_props (p p1 p2 : String) (s s1 s2 : Nat) :
    (s1 ≠ s2 → bcryptHash s1 p ≠ bcryptHash s2 p) ∧
    bcryptCompare p (bcryptHash s p) = true ∧
    (p1 ≠ p2 → bcryptCompare p1 (bcryptHash s p2) = false) := by
  refine ⟨?_, ?_, ?_⟩
  · intro hne h
    exact hne (congrArg HashedForm.salt h)
  · simp [bcryptCompare, bcryptHash]
  · intro hne
    simp only [bcryptCompare, bcryptHash]
    rw [beq_eq_false_iff_ne]
    intro h
    exact hne (congrArg HashedForm.digest h)

/-- C5 witness: concrete salts 0 and 1 and concrete distinct passwords. -/
theorem bcrypt_hash_verify_props_witness :
    (bcryptHash 0 "alpha" ≠ bcryptHash 1 "alpha") ∧
    bcryptCompare "alpha" (bcryptHash 0 "alpha") = true ∧
    bcryptCompare "alpha" (bcryptHash 0 "beta") = false := by
  have h := bcrypt_hash_verify_props "alpha" "alpha" "beta" 0 0 1
  exact ⟨h.1 (by decide), h.2.1, h.2.2 (by decide)⟩

/-- C1: for PUT and DELETE on a blog post — a missing document yields 404
regardless of any authenticated identity (the existence check precedes the
ownership comparison), a present document with no identity or a mismatched
identity yields 403 with the store untouched, and a matching identity lets
the mutation proceed. -/
theorem blog_mutation_ownership_guard (store : List Blog) (bid : String)
    (body : BlogBody) :
    (findBlogById store bid = none →
      ∀ user : Option AuthUser,
        updateBlog store user bid body = (.err 404, store) ∧
        deleteBlog store user bid = (.err 404, store)) ∧
    (∀ b, findBlogById store bid = some b →
      updateBlog store none bid body = (.err 403, store) ∧
      deleteBlog store none bid = (.err 403, store)) ∧
    (∀ b u, findBlogById store bid = some b → u.id ≠ b.userId →
      updateBlog store (some u) bid body = (.err 403, store) ∧
      deleteBlog store (some u) bid = (.err 403, store)) ∧
    (∀ b u, findBlogById store bid = some b → u.id = b.userId →
      (updateBlog store (some u) bid body).1 = .updated (applyUpdate body b) ∧
      (deleteBlog store (some u) bid).1 = .deleted) := by
  refine ⟨?_, ?_, ?_, ?_⟩
  · intro hfind user
    constructor <;> simp [updateBlog, deleteBlog, hfind]
  · intro b hfind
    constructor <;> simp [updateBlog, deleteBlog, hfind]
  · intro b u hfind hne
    have hbeq : (b.userId == u.id) = false := by
      rw [beq_eq_false_iff_ne]
      intro h
      exact hne h.symm
    constructor <;> simp [updateBlog, deleteBlog, hfind, hbeq]
  · intro b u hfind heq
    have hbeq : (b.userId == u.id) = true := by
      rw [beq_iff_eq]
      exact heq.symm
    constructor <;> simp [updateBlog, deleteBlog, hfind, hbeq]

/-- C1 witness: a missing id gives 404 even for a non-owner identity; an
existing post gives 403 for an absent identity and for a non-owner, leaving
the store unchanged; the owner identity proceeds with update and delete. -/
theorem blog_mutation_ownership_guard_witness :
    (updateBlog [] (some ⟨"u2", "B", "b"⟩) "b1" ⟨none, none, none, none, none, none⟩ =
        (.err 404, []) ∧
      deleteBlog [] (some ⟨"u2", "B", "b"⟩) "b1" = (.err 404, [])) ∧
    (updateBlog [⟨"b1", "t", "c", "x", "", "u1", "A"⟩] none "b1"
        ⟨none, none, none, none, none, none⟩ =
        (.err 403, [⟨"b1", "t", "c", "x", "", "u1", "A"⟩]) ∧
      deleteBlog [⟨"b1", "t", "c", "x", "", "u1", "A"⟩] none "b1" =
        (.err 403, [⟨"b1", "t", "c", "x", "", "u1", "A"⟩])) ∧
    (updateBlog [⟨"b1", "t", "c", "x", "", "u1", "A"⟩] (some ⟨"u2", "B", "b"⟩) "b1"
        ⟨none, none, none, none, none, none⟩ =
        (.err 403, [⟨"b1", "t", "c", "x", "", "u1", "A"⟩]) ∧
      deleteBlog [⟨"b1", "t", "c", "x", "", "u1", "A"⟩] (some ⟨"u2", "B", "b"⟩) "b1" =
        (.err 403, [⟨"b1", "t", "c", "x", "", "u1", "A"⟩])) ∧
    ((updateBlog [⟨"b1", "t", "c", "x", "", "u1", "A"⟩] (some ⟨"u1", "A", "a"⟩) "b1"
        ⟨none, none, none, none, none, none⟩).1 =
        .updated (applyUpdate ⟨none, none, none, none, none, none⟩
          ⟨"b1", "t", "c", "x", "", "u1", "A"⟩) ∧
      (deleteBlog [⟨"b1", "t", "c", "x", "", "u1", "A"⟩] (some ⟨"u1", "A", "a"⟩) "b1").1 =
        .deleted) := by
  have hempty := blog_mutation_ownership_guard [] "b1"
    ⟨none, none, none, none, none, none⟩
  have hone := blog_mutation_ownership_guard [⟨"b1", "t", "c", "x", "", "u1", "A"⟩]
    "b1" ⟨none, none, none, none, none, none⟩
  exact ⟨hempty.1 rfl (some ⟨"u2", "B", "b"⟩),
    hone.2.1 ⟨"b1", "t", "c", "x", "", "u1", "A"⟩ (by decide),
    hone.2.2.1 ⟨"b1", "t", "c", "x", "", "u1", "A"⟩ ⟨"u2", "B", "b"⟩
      (by decide) (by decide),
    hone.2.2.2 ⟨"b1", "t", "c", "x", "", "u1", "A"⟩ ⟨"u1", "A", "a"⟩
      (by decide) (by decide)⟩

/-- C8: the blog update operation never reassigns ownership — every document
in the store after an update call descends from a document of the store
before it with the same id, the same userId and the same authorName,
whatever the request body contains. -/
theorem updateBlog_preserves_owner (store : List Blog) (user : Option AuthUser)
    (bid : String) (body : BlogBody) :
    ∀ b2 ∈ (updateBlog store user bid body).2,
      ∃ b1 ∈ store, b2.id = b1.id ∧ b2.userId = b1.userId ∧
        b2.authorName = b1.authorName := by
  intro b2 hb2
  cases hfind : findBlogById store bid with
  | none =>
      simp only [updateBlog, hfind] at hb2
      exact ⟨b2, hb2, rfl, rfl, rfl⟩
  | some b =>
      have hbmem : b ∈ store := List.mem_of_find?_eq_some hfind
      cases user with
      | none =>
          simp only [updateBlog, hfind] at hb2
          exact ⟨b2, hb2, rfl, rfl, rfl⟩
      | some u =>
          simp only [updateBlog, hfind] at hb2
          by_cases hbeq : (b.userId == u.id) = true
          · rw [if_pos hbeq] at hb2
            simp only [List.mem_map] at hb2
            obtain ⟨c, hc, hfc⟩ := hb2
            by_cases hid : (c.id == b.id) = true
            · rw [if_pos hid] at hfc
              refine ⟨b, hbmem, ?_, ?_, ?_⟩ <;> rw [← hfc] <;> rfl
            · rw [if_neg hid] at hfc
              exact ⟨c, hc, by rw [← hfc], by rw [← hfc], by rw [← hfc]⟩
          · rw [if_neg hbeq] at hb2
            exact ⟨b2, hb2, rfl, rfl, rfl⟩

/-- C8 witness: an update request whose body tries to set userId and
authorName; the resulting document still descends from the stored one with
the original owner and author. -/
theorem updateBlog_preserves_owner_witness :
    ∃ b1 ∈ [(⟨"b1", "t", "c", "x", "", "u1", "A"⟩ : Blog)],
      Blog.id ⟨"b1", "t2", "c", "x", "", "u1", "A"⟩ = b1.id ∧
      Blog.userId ⟨"b1", "t2", "c", "x", "", "u1", "A"⟩ = b1.userId ∧
      Blog.authorName ⟨"b1", "t2", "c", "x", "", "u1", "A"⟩ = b1.authorName :=
  updateBlog_preserves_owner [⟨"b1", "t", "c", "x", "", "u1", "A"⟩]
    (some ⟨"u1", "A", "a"⟩) "b1"
    ⟨some "t2", none, none, none, some "evil", some "Eve"⟩
    ⟨"b1", "t2", "c", "x", "", "u1", "A"⟩ (by decide)

/-- C10: an authenticated creation request records the creating identity —
the created document carries the requesting identity id and name, and any
userId or authorName fields of the request body are ignored (the call is
invariant under changing them). -/
theorem createBlog_owner_from_identity (store : List Blog) (u : AuthUser)
    (body : BlogBody) (newId : String) :
    (∀ b, (createBlog store (some u) body newId).1 = .created b →
      b.userId = u.id ∧ b.authorName = u.name) ∧
    (∀ x y, createBlog store (some u)
        { body with userId := x, authorName := y } newId =
      createBlog store (some u) body newId) := by
  constructor
  · intro b hb
    unfold createBlog at hb
    by_cases hval :
        (jsFalsy body.title || jsFalsy body.category || jsFalsy body.content) = true
    · rw [if_pos hval] at hb
      exact absurd hb (by simp)
    · rw [if_neg hval] at hb
      simp only [BlogResult.created.injEq] at hb
      rw [← hb]
      exact ⟨rfl, rfl⟩
  · intro x y
    unfold createBlog
    rfl

/-- C10 witness: a body carrying attacker-chosen userId and authorName
values; the created document still carries the authenticated identity, and
the call result equals the one with those fields absent. -/
theorem createBlog_owner_from_identity_witness :
    (Blog.userId ⟨"b9", "t", "c", "x", "", "u1", "A"⟩ = "u1" ∧
      Blog.authorName ⟨"b9", "t", "c", "x", "", "u1", "A"⟩ = "A") ∧
    createBlog [] (some ⟨"u1", "A", "a"⟩)
        ⟨some "t", some "c", some "x", none, some "evil", some "Eve"⟩ "b9" =
      createBlog [] (some ⟨"u1", "A", "a"⟩)
        ⟨some "t", some "c", some "x", none, none, none⟩ "b9" := by
  have h := createBlog_owner_from_identity [] ⟨"u1", "A", "a"⟩
    ⟨some "t", some "c", some "x", none, none, none⟩ "b9"
  exact ⟨h.1 ⟨"b9", "t", "c", "x", "", "u1", "A"⟩ (by decide),
    h.2 (some "evil") (some "Eve")⟩

/-- C2: the identity resolver rejects with a 401 outcome exactly when the
credential header is absent, the bearer prefix is missing or malformed, the
token fails codec verification, or no account exists for the decoded
subject; otherwise it attaches the looked-up account with the password
stripped, and in every case the user collection is left unchanged. A
Bearer-prefixed header with no token part rejects through the catch with
the token-failed message, since verifying the undefined token throws. -/
theorem protect_auth_cases (secret : String) (now : Nat) (users : List StoredUser) :
    (protect secret now users .missing =
      (.unauthorized "Not authorized, no token provided", users)) ∧
    (∀ raw, protect secret now users (.otherSchemeHeader raw) =
      (.unauthorized "Not authorized, no token provided", users)) ∧
    (protect secret now users .bearerNoToken =
      (.unauthorized "Not authorized, token failed or expired", users)) ∧
    (∀ tok, (∀ s, verifyToken secret now tok ≠ .ok s) →
      protect secret now users (.bearer tok) =
        (.unauthorized "Not authorized, token failed or expired", users)) ∧
    (∀ tok s, verifyToken secret now tok = .ok s → findUserById users s = none →
      protect secret now users (.bearer tok) =
        (.unauthorized "Not authorized, token failed or expired", users)) ∧
    (∀ tok s u, verifyToken secret now tok = .ok s →
      findUserById users s = some u →
      protect secret now users (.bearer tok) = (.ok (stripPassword u), users)) ∧
    (∀ h, (protect secret now users h).2 = users) := by
  refine ⟨rfl, fun raw => rfl, rfl, ?_, ?_, ?_, ?_⟩
  · intro tok hfail
    cases hv : verifyToken secret now tok with
    | ok s => exact absurd hv (hfail s)
    | invalidSignature => simp [protect, hv]
    | expired => simp [protect, hv]
    | malformed => simp [protect, hv]
  · intro tok s hok hnone
    simp only [protect, hok, hnone]
  · intro tok s u hok hsome
    simp only [protect, hok, hsome]
  · intro h
    cases h with
    | missing => rfl
    | otherSchemeHeader raw => rfl
    | bearerNoToken => rfl
    | bearer tok =>
        cases hv : verifyToken secret now tok with
        | ok s => cases hu : findUserById users s <;> simp [protect, hv, hu]
        | invalidSignature => simp [protect, hv]
        | expired => simp [protect, hv]
        | malformed => simp [protect, hv]

/-- C2 witness: a missing header, a Bearer header with no token part, a
garbage bearer token, a valid token for an account absent from the store,
and a valid token for a stored account, each at concrete values. -/
theorem protect_auth_cases_witness :
    protect "key" 0 [] .missing =
      (.unauthorized "Not authorized, no token provided", []) ∧
    protect "key" 0 [] .bearerNoToken =
      (.unauthorized "Not authorized, token failed or expired", []) ∧
    protect "key" 0 [] (.bearer (.garbage "zz")) =
      (.unauthorized "Not authorized, token failed or expired", []) ∧
    protect "key" 0 [] (.bearer (generateToken "key" "u9" 0)) =
      (.unauthorized "Not authorized, token failed or expired", []) ∧
    protect "key" 0 [⟨"u1", "A", "a", ⟨0, "pw"⟩⟩]
        (.bearer (generateToken "key" "u1" 0)) =
      (.ok (stripPassword ⟨"u1", "A", "a", ⟨0, "pw"⟩⟩),
        [⟨"u1", "A", "a", ⟨0, "pw"⟩⟩]) := by
  have h0 := protect_auth_cases "key" 0 []
  have h1 := protect_auth_cases "key" 0 [⟨"u1", "A", "a", ⟨0, "pw"⟩⟩]
  refine ⟨h0.1, h0.2.2.1, h0.2.2.2.1 (.garbage "zz") ?_,
    h0.2.2.2.2.1 (generateToken "key" "u9" 0) "u9" (by decide) rfl,
    h1.2.2.2.2.2.1 (generateToken "key" "u1" 0) "u1" ⟨"u1", "A", "a", ⟨0, "pw"⟩⟩
      (by decide) (by decide)⟩
  intro s hcontra
  simp [verifyToken] at hcontra

/-- C6: login with an unknown email and login with a known email but a
wrong password produce the same externally visible failure — same 401
status and same message — so the response reveals nothing about whether the
email exists. -/
theorem login_indistinguishable_failures (secret : String) (now : Nat)
    (users : List StoredUser) (e1 p1 e2 p2 : String) (u : StoredUser)
    (hmiss : findUserByEmail users e1 = none)
    (hhit : findUserByEmail users e2 = some u)
    (hwrong : comparePassword u p2 = false) :
    loginUser secret now users e1 p1 = .failure 401 "Invalid email or password" ∧
    loginUser secret now users e2 p2 = .failure 401 "Invalid email or password" ∧
    loginUser secret now users e1 p1 = loginUser secret now users e2 p2 := by
  have ha : loginUser secret now users e1 p1 =
      .failure 401 "Invalid email or password" := by
    simp only [loginUser, hmiss]
  have hb : loginUser secret now users e2 p2 =
      .failure 401 "Invalid email or password" := by
    simp only [loginUser, hhit, hwrong, Bool.false_eq_true, if_false]
  exact ⟨ha, hb, ha.trans hb.symm⟩

/-- C6 witness: a store with one account; a login for an unregistered email
and one for the stored email with a wrong password, both failing with the
identical response. -/
theorem login_indistinguishable_failures_witness :
    loginUser "key" 0 [⟨"u1", "A", "a@x.com", ⟨0, "pw1234"⟩⟩] "nobody@x.com" "pw1234" =
      .failure 401 "Invalid email or password" ∧
    loginUser "key" 0 [⟨"u1", "A", "a@x.com", ⟨0, "pw1234"⟩⟩] "A@X.com" "wrong1" =
      .failure 401 "Invalid email or password" ∧
    loginUser "key" 0 [⟨"u1", "A", "a@x.com", ⟨0, "pw1234"⟩⟩] "nobody@x.com" "pw1234" =
      loginUser "key" 0 [⟨"u1", "A", "a@x.com", ⟨0, "pw1234"⟩⟩] "A@X.com" "wrong1" :=
  login_indistinguishable_failures "key" 0 [⟨"u1", "A", "a@x.com", ⟨0, "pw1234"⟩⟩]
    "nobody@x.com" "pw1234" "A@X.com" "wrong1" ⟨"u1", "A", "a@x.com", ⟨0, "pw1234"⟩⟩
    (by decide) (by decide) (by decide)

/-- C7: a second registration whose email equals an already registered
email case-insensitively fails with DuplicateEmail, and the failure is
atomic — the store after the failed attempt equals the store after the
first registration, so no account is added and the first account is
unchanged. -/
theorem signup_duplicate_email_atomic (secret : String) (now : Nat)
    (users : List StoredUser) (n1 e1 pw1 id1 n2 e2 pw2 id2 : String)
    (s1 s2 : Nat)
    (hn1 : n1 ≠ "") (he1 : e1 ≠ "") (hp1 : ¬ pw1.length < 6)
    (hn2 : n2 ≠ "") (he2 : e2 ≠ "") (hp2 : ¬ pw2.length < 6)
    (hfresh : findUserByEmail users e1 = none)
    (hsame : toLowerStr e2 = toLowerStr e1) :
    (signupUser secret now users n1 e1 pw1 id1 s1).1 =
      .success (stripPassword ⟨id1, n1, toLowerStr e1, bcryptHash s1 pw1⟩)
        (generateToken secret id1 now) ∧
    signupUser secret now ((signupUser secret now users n1 e1 pw1 id1 s1).2)
        n2 e2 pw2 id2 s2 =
      (.failure 409 "DuplicateEmail",
        (signupUser secret now users n1 e1 pw1 id1 s1).2) := by
  have hb1 : (n1 == "") = false := beq_eq_false_iff_ne.mpr hn1
  have hb2 : (e1 == "") = false := beq_eq_false_iff_ne.mpr he1
  have hb3 : decide (pw1.length < 6) = false := decide_eq_false hp1
  have hc1 : (n2 == "") = false := beq_eq_false_iff_ne.mpr hn2
  have hc2 : (e2 == "") = false := beq_eq_false_iff_ne.mpr he2
  have hc3 : decide (pw2.length < 6) = false := decide_eq_false hp2
  have hstore : (signupUser secret now users n1 e1 pw1 id1 s1).2 =
      users ++ [⟨id1, n1, toLowerStr e1, bcryptHash s1 pw1⟩] := by
    simp [signupUser, hb1, hb2, hb3, hfresh]
  constructor
  · simp [signupUser, hb1, hb2, hb3, hfresh]
  · rw [hstore]
    have hfind2 : findUserByEmail
        (users ++ [⟨id1, n1, toLowerStr e1, bcryptHash s1 pw1⟩]) e2 =
        some ⟨id1, n1, toLowerStr e1, bcryptHash s1 pw1⟩ := by
      unfold findUserByEmail
      unfold findUserByEmail at hfresh
      rw [List.find?_append, hsame, hfresh]
      simp [List.find?]
    simp [signupUser, hc1, hc2, hc3, hfind2]

/-- C7 witness: register Ann with A@X.com, then attempt Bob with a@x.com —
the second attempt fails with DuplicateEmail and the store is exactly the
one produced by the first registration. -/
theorem signup_duplicate_email_atomic_witness :
    (signupUser "key" 0 [] "Ann" "A@X.com" "secret1" "u1" 0).1 =
      .success (stripPassword ⟨"u1", "Ann", toLowerStr "A@X.com", bcryptHash 0 "secret1"⟩)
        (generateToken "key" "u1" 0) ∧
    signupUser "key" 0 ((signupUser "key" 0 [] "Ann" "A@X.com" "secret1" "u1" 0).2)
        "Bob" "a@x.com" "secret2" "u2" 1 =
      (.failure 409 "DuplicateEmail",
        (signupUser "key" 0 [] "Ann" "A@X.com" "secret1" "u1" 0).2) :=
  signup_duplicate_email_atomic "key" 0 [] "Ann" "A@X.com" "secret1" "u1"
    "Bob" "a@x.com" "secret2" "u2" 0 1
    (by decide) (by decide) (by decide) (by decide) (by decide) (by decide)
    (by decide) (by decide)

/-- C9 counterexample: the claim that outside development mode the error
body contains no stack trace is false — with NODE_ENV equal to test, which
is not development mode, the handler still includes the stack, because the
code suppresses it only in production mode. -/
theorem errorHandler_nondev_leak_counterexample :
    ¬ (∀ (env : String) (e : ErrObj) (r : Res),
        (r.statusCode = 200 → (errorHandler env e r).status = 500) ∧
        (env ≠ "development" → (errorHandler env e r).stack = none)) := by
  intro h
  have h2 := (h "test" ⟨"db down", "trace"⟩ ⟨200⟩).2 (by decide)
  simp [errorHandler] at h2

/-- C9 amended: the final error handler sets status 500 exactly when no
more specific status was set (the response status is still 200), always
includes the error message in the body, and omits the stack trace exactly
when NODE_ENV is production. -/
theorem errorHandler_status_and_stack (env : String) (e : ErrObj) (r : Res) :
    (errorHandler env e r).status =
      (if r.statusCode = 200 then 500 else r.statusCode) ∧
    (errorHandler env e r).message = e.message ∧
    ((errorHandler env e r).stack = none ↔ env = "production") := by
  refine ⟨rfl, rfl, ?_⟩
  simp only [errorHandler]
  by_cases hp : env = "production"
  · simp [hp]
  · simp [hp]
